import Mathlib

/-!
# Incident register for medical centres: model of `src/server.js`

Shallow embedding of the Express handlers of `server.js` and of the four tables
they query.

Modelling conventions.

* A JSON body field or header is an `Option String`: `none` stands for a field
  that is absent (`undefined`/`null`); JavaScript truthiness of such a value is
  `truthy` (present and not the empty string).
* JavaScript strings are Lean strings. `String.prototype.toUpperCase` is
  tabulated for the code points U+0000..U+00FF (`upperChar`); code points from
  U+0100 on are kept as they are, so statements about upper-casing are made for
  Latin-1 text only.
* The store is the four tables as lists of rows in insertion order, plus the
  four `SERIAL` counters. The key constraints that the handlers run into are
  checked on insertion (`UNIQUE`, `NOT NULL` on `monto`); column widths and
  date syntax are left to the storage engine and are not checked.
* There is one clock, in milliseconds, read once per request (`now`); thirty
  calendar days are `30 * 86400000` ms. The random part of a generated
  identifier (`Math.random().toString(36).substr(..)`) is an input (`rnd`).
* A handler is a function `Store → … → Respuesta × Store`. A `catch` branch
  keeps the writes done before the failing query: the handlers open no
  transaction.
-/

namespace Incidentes

/-! ## Values -/

/-- The three levels written by the handlers: 'BAJO', 'MEDIO', 'ALTO'. -/
inductive Nivel where
  | BAJO
  | MEDIO
  | ALTO
  deriving DecidableEq, Repr

/-- The literal stored in `nivel_riesgo` / `nivel_gravedad`. -/
def Nivel.texto : Nivel → String
  | Nivel.BAJO => "BAJO"
  | Nivel.MEDIO => "MEDIO"
  | Nivel.ALTO => "ALTO"

/-- Position of a level in the order BAJO < MEDIO < ALTO. -/
def Nivel.rango : Nivel → Nat
  | Nivel.BAJO => 0
  | Nivel.MEDIO => 1
  | Nivel.ALTO => 2

/-- JavaScript truthiness of a string-or-absent value. -/
def truthy : Option String → Bool
  | none => false
  | some s => s != ""

/-- JavaScript `a || b` on string-or-absent values. -/
def jsOr (a b : Option String) : Option String :=
  if truthy a then a else b

/-! ## Strings -/

/-- `Array.prototype.slice` / `String.prototype.slice` with both arguments:
negative indices count from the end, everything is clamped to the length. -/
def jsSlice {α : Type} (xs : List α) (start stop : Int) : List α :=
  let len : Int := xs.length
  let desde : Int := if start < 0 then max (len + start) 0 else min start len
  let hasta : Int := if stop < 0 then max (len + stop) 0 else min stop len
  (xs.drop desde.toNat).take (hasta - desde).toNat

/-- Upper-case mapping of one character (Unicode full case mapping) for the
code points below U+0100: a-z and the Latin-1 small letters go to their
capitals, U+00DF (sharp s) goes to "SS", U+00B5 goes to U+039C, U+00FF goes to
U+0178. -/
def upperChar (c : Char) : List Char :=
  let n := c.toNat
  if 0x61 ≤ n ∧ n ≤ 0x7A then [Char.ofNat (n - 0x20)]
  else if n = 0xB5 then [Char.ofNat 0x39C]
  else if n = 0xDF then [Char.ofNat 0x53, Char.ofNat 0x53]
  else if 0xE0 ≤ n ∧ n ≤ 0xFE ∧ n ≠ 0xF7 then [Char.ofNat (n - 0x20)]
  else if n = 0xFF then [Char.ofNat 0x178]
  else [c]

/-- `String.prototype.toUpperCase`. -/
def toUpperCase (s : String) : String :=
  String.mk (s.data.flatMap upperChar)

/-- `String.prototype.charAt(0)`: the first character, or the empty string. -/
def charAt0 (s : String) : String :=
  String.mk (s.data.take 1)

/-- `rutPaciente.replace(/\D/g, '')`: drop every character that is not one of
the ten ASCII digits. -/
def rutLimpio (rutPaciente : String) : String :=
  String.mk (rutPaciente.data.filter fun c => decide (0x30 ≤ c.toNat ∧ c.toNat ≤ 0x39))

/-- `rutLimpio.slice(-4, -1)`. -/
def rut_ultimos_3 (rutPaciente : String) : String :=
  String.mk (jsSlice (rutLimpio rutPaciente).data (-4) (-1))

/-- `(nombre.charAt(0) + (apellido ? apellido.charAt(0) : 'X')).toUpperCase()`. -/
def iniciales (nombre : String) (apellido : Option String) : String :=
  toUpperCase (charAt0 nombre ++
    (match apellido with
     | some a => if truthy (some a) then charAt0 a else "X"
     | none => "X"))

/-! ## Classification and escalation -/

def tiposAltos : List String := ["agresion_fisica", "amenazas"]

def tiposMedios : List String := ["agresion_verbal", "comportamiento_agresivo", "demanda_amenazada"]

/-- Severity of a new incident (`nivelGravedad` in the handler). -/
def nivelGravedad (tipoIncidente : String) : Nivel :=
  if tiposAltos.contains tipoIncidente then Nivel.ALTO
  else if tiposMedios.contains tipoIncidente then Nivel.MEDIO
  else Nivel.BAJO

/-- Risk level recomputed from the incident count (`nuevoNivelRiesgo`). -/
def nuevoNivelRiesgo (total : Nat) : Nivel :=
  if total ≥ 3 then Nivel.ALTO
  else if total ≥ 2 then Nivel.MEDIO
  else Nivel.BAJO

/-- The reference function of the specification, section 4.2: count ≥ 3 is
HIGH, count = 2 is MEDIUM, otherwise LOW. -/
def escalate (incidentCountForPatient : Nat) : Nivel :=
  if incidentCountForPatient ≥ 3 then Nivel.ALTO
  else if incidentCountForPatient = 2 then Nivel.MEDIO
  else Nivel.BAJO

/-! ## The plan catalogue -/

structure Plan where
  nombre : String
  precio : Int
  duracion : Nat
  limite_registros : Int
  deriving DecidableEq, Repr

/-- The own entries of the object literal `PLANES`. -/
def PLANES : List (String × Plan) :=
  [("basico", ⟨"Plan Básico", 9990, 30, 50⟩),
   ("profesional", ⟨"Plan Profesional", 19990, 30, -1⟩),
   ("empresa", ⟨"Plan Empresa", 49990, 30, -1⟩)]

/-- The property names that an object literal inherits from
`Object.prototype`; each of them reads as a function or object. -/
def heredadas : List String :=
  ["constructor", "__defineGetter__", "__defineSetter__", "hasOwnProperty",
   "__lookupGetter__", "__lookupSetter__", "isPrototypeOf", "propertyIsEnumerable",
   "toString", "valueOf", "__proto__", "toLocaleString"]

/-- What `PLANES[k]` evaluates to. -/
inductive Propiedad where
  | propia (p : Plan)
  | heredada
  | indefinida
  deriving DecidableEq, Repr

/-- The expression `PLANES[planId]`: own entries first, then the prototype
chain; an absent `planId` reads the key "undefined". -/
def indexarPLANES (planId : Option String) : Propiedad :=
  match planId with
  | none => .indefinida
  | some k =>
    match PLANES.lookup k with
    | some p => .propia p
    | none => if heredadas.contains k then .heredada else .indefinida

/-- Truthiness of `PLANES[planId]`: only `undefined` is falsy. -/
def Propiedad.truthy : Propiedad → Bool
  | .indefinida => false
  | _ => true

/-- The expression `plan.precio`: `undefined` on an inherited member. -/
def Propiedad.precio : Propiedad → Option Int
  | .propia p => some p.precio
  | _ => none

/-- The expression `PLANES[k].nombre` once `PLANES[k]` is an object. -/
def Propiedad.nombre : Propiedad → Option String
  | .propia p => some p.nombre
  | _ => none

/-! ## Tables -/

structure Paciente where
  id : Nat
  rut_completo : String
  rut_ultimos_3 : String
  nombre : String
  apellido : Option String
  iniciales : String
  nivel_riesgo : Nivel
  created_at : Nat
  updated_at : Nat
  deriving DecidableEq, Repr

structure Incidente where
  id : Nat
  paciente_id : Nat
  tipo_incidente : String
  descripcion : String
  fecha_incidente : String
  nivel_gravedad : Nivel
  centro_medico : Option String
  numero_registro : String
  created_by_email : Option String
  created_at : Nat
  deriving DecidableEq, Repr

structure CentroMedico where
  id : Nat
  email : String
  nombre_centro : String
  rut_centro : Option String
  telefono : String
  plan_id : Option String
  suscripcion_activa : Bool
  created_at : Nat
  updated_at : Nat
  deriving DecidableEq, Repr

/-- The two values written to `suscripciones.estado`. -/
inductive Estado where
  | pendiente
  | activa
  deriving DecidableEq, Repr

structure Suscripcion where
  id : Nat
  centro_id : Nat
  commerce_order : String
  plan_id : String
  email : String
  monto : Int
  estado : Estado
  fecha_inicio : Nat
  fecha_activacion : Option Nat
  fecha_vencimiento : Option Nat
  payment_token : Option String
  created_at : Nat
  deriving DecidableEq, Repr

/-- The database: the four tables and the next value of each `SERIAL`. -/
structure Store where
  pacientes : List Paciente
  incidentes : List Incidente
  centros : List CentroMedico
  suscripciones : List Suscripcion
  seqPacientes : Nat
  seqIncidentes : Nat
  seqCentros : Nat
  seqSuscripciones : Nat
  deriving DecidableEq, Repr

/-- The database right after `initDB`. -/
def vacio : Store := ⟨[], [], [], [], 1, 1, 1, 1⟩

/-- Milliseconds in one day. -/
def msDia : Nat := 86400000

/-! ## Responses -/

/-- What a handler sends back. -/
inductive Respuesta where
  | error (status : Nat) (mensaje : String)
  | incidente (numeroRegistro : String)
  | suscripcion (paymentUrl orderId : String)
  | pago (numeroRegistro : Option String)
  | estadoActiva (plan : Option String) (fechaVencimiento diasRestantes : Nat) (nombreCentro : String)
  | estadoInactiva
  deriving DecidableEq, Repr

/-! ## The entitlement query -/

/-- The rows of `suscripciones s JOIN centros_medicos c ON s.centro_id = c.id`. -/
def joinCentros (st : Store) : List (Suscripcion × CentroMedico) :=
  st.suscripciones.flatMap fun s =>
    (st.centros.filter fun c => s.centro_id == c.id).map fun c => (s, c)

/-- The condition `s.fecha_vencimiento > NOW()`; it is not met by a NULL. -/
def vigente (s : Suscripcion) (now : Nat) : Bool :=
  match s.fecha_vencimiento with
  | some v => decide (now < v)
  | none => false

/-- The sort key of `ORDER BY s.fecha_vencimiento`. -/
def vencimiento (s : Suscripcion) : Nat := s.fecha_vencimiento.getD 0

/-- The clause `ORDER BY s.fecha_vencimiento DESC LIMIT 1`: a row with the
greatest expiry, the earliest stored one among equals. -/
def primeraPorVencimiento : List (Suscripcion × CentroMedico) → Option (Suscripcion × CentroMedico)
  | [] => none
  | f :: fs =>
    match primeraPorVencimiento fs with
    | none => some f
    | some g => if vencimiento f.1 < vencimiento g.1 then some g else some f

/-- The query shared by `verificarSuscripcion` and
`/api/verificar-suscripcion/:email`. -/
def consultaActiva (st : Store) (email : String) (now : Nat) : Option (Suscripcion × CentroMedico) :=
  primeraPorVencimiento
    ((joinCentros st).filter fun f =>
      f.1.email == email && f.1.estado == Estado.activa && vigente f.1 now)

/-! ## Requests -/

structure ReqIncidente where
  headerUserEmail : Option String
  rutPaciente : Option String
  nombre : Option String
  apellido : Option String
  tipoIncidente : Option String
  descripcion : Option String
  fechaIncidente : Option String
  centroMedico : Option String
  userEmail : Option String
  deriving DecidableEq, Repr

structure ReqSuscripcion where
  planId : Option String
  email : Option String
  centroMedico : Option String
  telefono : Option String
  rutCentro : Option String
  deriving DecidableEq, Repr

structure ReqPago where
  commerceOrder : Option String
  paymentToken : Option String
  deriving DecidableEq, Repr

/-! ## Handlers -/

/-- The middleware `verificarSuscripcion`: the row put in `req.suscripcion`, or
the response that ends the request. -/
def verificarSuscripcion (st : Store) (now : Nat) (req : ReqIncidente) :
    Except Respuesta (Suscripcion × CentroMedico) :=
  match jsOr req.headerUserEmail req.userEmail with
  | none => .error (.error 401 "No autorizado")
  | some email =>
    if !truthy (some email) then .error (.error 401 "No autorizado")
    else
      match consultaActiva st email now with
      | none => .error (.error 403 "Suscripción inactiva")
      | some fila => .ok fila

/-- Lines 288-300 of the handler: look the patient up by the full identity as
received and insert a row when there is none; the patient id and the store. -/
def buscarOCrearPaciente (st : Store) (now : Nat) (rutPaciente nombre : String)
    (apellido : Option String) : Nat × Store :=
  match st.pacientes.filter fun p => p.rut_completo == rutPaciente with
  | [] =>
    (st.seqPacientes,
      { st with
        pacientes := st.pacientes ++
          [{ id := st.seqPacientes, rut_completo := rutPaciente,
             rut_ultimos_3 := rut_ultimos_3 rutPaciente, nombre := nombre,
             apellido := apellido, iniciales := iniciales nombre apellido,
             nivel_riesgo := Nivel.BAJO, created_at := now, updated_at := now }],
        seqPacientes := st.seqPacientes + 1 })
  | p :: _ => (p.id, st)

/-- The statement `UPDATE pacientes SET nivel_riesgo = $1, updated_at = NOW()
WHERE id = $2`. -/
def actualizarRiesgo (st : Store) (now : Nat) (pacienteId : Nat) (nivel : Nivel) : Store :=
  { st with
    pacientes := st.pacientes.map fun p =>
      if p.id == pacienteId then { p with nivel_riesgo := nivel, updated_at := now } else p }

/-- The query `SELECT COUNT(*) FROM incidentes WHERE paciente_id = $1`. -/
def totalIncidentes (st : Store) (pacienteId : Nat) : Nat :=
  (st.incidentes.filter fun i => i.paciente_id == pacienteId).length

/-- The registration number built at line 309. -/
def numeroRegistro (now : Nat) (rnd : String) : String :=
  "INC-" ++ toString now ++ "-" ++ toUpperCase rnd

/-- Handler body of `POST /api/registrar-incidente`, after the middleware. -/
def registrarIncidenteCuerpo (st : Store) (now : Nat) (rnd : String) (req : ReqIncidente) :
    Respuesta × Store :=
  if !truthy req.rutPaciente || !truthy req.nombre || !truthy req.tipoIncidente
      || !truthy req.descripcion || !truthy req.fechaIncidente then
    (.error 400 "Faltan campos obligatorios", st)
  else
    match req.rutPaciente, req.nombre, req.tipoIncidente, req.descripcion, req.fechaIncidente with
    | some rutPaciente, some nombre, some tipoIncidente, some descripcion, some fechaIncidente =>
      let pc := buscarOCrearPaciente st now rutPaciente nombre req.apellido
      let pacienteId := pc.1
      let st1 := pc.2
      let numeroRegistro := numeroRegistro now rnd
      if st1.incidentes.any fun i => i.numero_registro == numeroRegistro then
        (.error 500 "Error al registrar", { st1 with seqIncidentes := st1.seqIncidentes + 1 })
      else
        let st2 : Store :=
          { st1 with
            incidentes := st1.incidentes ++
              [{ id := st1.seqIncidentes, paciente_id := pacienteId,
                 tipo_incidente := tipoIncidente, descripcion := descripcion,
                 fecha_incidente := fechaIncidente, nivel_gravedad := nivelGravedad tipoIncidente,
                 centro_medico := req.centroMedico, numero_registro := numeroRegistro,
                 created_by_email := req.userEmail, created_at := now }],
            seqIncidentes := st1.seqIncidentes + 1 }
        let total := totalIncidentes st2 pacienteId
        (.incidente numeroRegistro, actualizarRiesgo st2 now pacienteId (nuevoNivelRiesgo total))
    | _, _, _, _, _ => (.error 400 "Faltan campos obligatorios", st)

/-- The route `POST /api/registrar-incidente`: middleware, then handler. -/
def registrarIncidente (st : Store) (now : Nat) (rnd : String) (req : ReqIncidente) :
    Respuesta × Store :=
  match verificarSuscripcion st now req with
  | .error r => (r, st)
  | .ok _ => registrarIncidenteCuerpo st now rnd req

/-- Lines 145-157 of the handler: look the centre up by email and insert a row
when there is none; the centre id and the store. -/
def buscarOCrearCentro (st : Store) (now : Nat) (email centroMedico telefono : String)
    (rutCentro : Option String) (planId : String) : Nat × Store :=
  match st.centros.filter fun c => c.email == email with
  | [] =>
    (st.seqCentros,
      { st with
        centros := st.centros ++
          [{ id := st.seqCentros, email := email, nombre_centro := centroMedico,
             rut_centro := rutCentro, telefono := telefono, plan_id := some planId,
             suscripcion_activa := false, created_at := now, updated_at := now }],
        seqCentros := st.seqCentros + 1 })
  | c :: _ => (c.id, st)

/-- The route `POST /api/crear-suscripcion`; the payment URL is the one built
when `BASE_URL` is not set. -/
def crearSuscripcion (st : Store) (now : Nat) (rnd : String) (req : ReqSuscripcion) :
    Respuesta × Store :=
  if !(indexarPLANES req.planId).truthy || !truthy req.email || !truthy req.centroMedico
      || !truthy req.telefono then
    (.error 400 "Datos incompletos", st)
  else
    match req.planId, req.email, req.centroMedico, req.telefono with
    | some planId, some email, some centroMedico, some telefono =>
      let plan := indexarPLANES req.planId
      let commerceOrder := "SUB-" ++ toString now ++ "-" ++ rnd
      let cc := buscarOCrearCentro st now email centroMedico telefono req.rutCentro planId
      let centroId := cc.1
      let st1 := cc.2
      match plan.precio with
      | none =>
        (.error 500 "Error al procesar suscripción",
          { st1 with seqSuscripciones := st1.seqSuscripciones + 1 })
      | some monto =>
        if st1.suscripciones.any fun s => s.commerce_order == commerceOrder then
          (.error 500 "Error al procesar suscripción",
            { st1 with seqSuscripciones := st1.seqSuscripciones + 1 })
        else
          (.suscripcion ("http://localhost:3000/simulacion-pago?order=" ++ commerceOrder) commerceOrder,
            { st1 with
              suscripciones := st1.suscripciones ++
                [{ id := st1.seqSuscripciones, centro_id := centroId,
                   commerce_order := commerceOrder, plan_id := planId, email := email,
                   monto := monto, estado := Estado.pendiente, fecha_inicio := now,
                   fecha_activacion := none, fecha_vencimiento := none,
                   payment_token := none, created_at := now }],
              seqSuscripciones := st1.seqSuscripciones + 1 })
    | _, _, _, _ => (.error 400 "Datos incompletos", st)

/-- The statement `UPDATE suscripciones SET estado = 'activa',
fecha_activacion = NOW(), fecha_vencimiento = $1, payment_token = $2 WHERE
commerce_order = $3`, on one row. -/
def activarFila (now fechaVencimiento : Nat) (paymentToken commerceOrder : Option String)
    (s : Suscripcion) : Suscripcion :=
  if some s.commerce_order == commerceOrder then
    { s with estado := Estado.activa, fecha_activacion := some now,
             fecha_vencimiento := some fechaVencimiento, payment_token := paymentToken }
  else s

/-- The statement `UPDATE centros_medicos SET suscripcion_activa = true,
plan_id = $1, updated_at = NOW() WHERE id = $2`, on one row. -/
def marcarCentro (now : Nat) (planId : String) (centroId : Nat) (c : CentroMedico) :
    CentroMedico :=
  if c.id == centroId then
    { c with suscripcion_activa := true, plan_id := some planId, updated_at := now }
  else c

/-- The route `POST /api/confirmar-pago`. -/
def confirmarPago (st : Store) (now : Nat) (req : ReqPago) : Respuesta × Store :=
  match (joinCentros st).filter fun f => some f.1.commerce_order == req.commerceOrder with
  | [] => (.error 404 "Suscripción no encontrada", st)
  | sub :: _ =>
    let fechaVencimiento := now + 30 * msDia
    (.pago req.commerceOrder,
      { st with
        suscripciones :=
          st.suscripciones.map (activarFila now fechaVencimiento req.paymentToken req.commerceOrder),
        centros := st.centros.map (marcarCentro now sub.1.plan_id sub.2.id) })

/-- One request to one of the three writing routes. -/
inductive Llamada where
  | crearSuscripcion (rnd : String) (req : ReqSuscripcion)
  | confirmarPago (req : ReqPago)
  | registrarIncidente (rnd : String) (req : ReqIncidente)
  deriving DecidableEq, Repr

/-- Serve one request at time `now`. -/
def atender (st : Store) (now : Nat) : Llamada → Respuesta × Store
  | .crearSuscripcion rnd req => crearSuscripcion st now rnd req
  | .confirmarPago req => confirmarPago st now req
  | .registrarIncidente rnd req => registrarIncidente st now rnd req

/-- Serve the requests one after the other; the responses come back in order. -/
def servir (st : Store) : List (Nat × Llamada) → List Respuesta × Store
  | [] => ([], st)
  | (now, ll) :: resto =>
    let r := atender st now ll
    let rs := servir r.2 resto
    (r.1 :: rs.1, rs.2)

/-- The request times start at `desde` or later and never go back. -/
def cronologica (desde : Nat) : List (Nat × Llamada) → Prop
  | [] => True
  | (a, _) :: resto => desde ≤ a ∧ cronologica a resto

/-! ## Scenarios used in the statements below -/

/-- The registration request of the end-to-end scenario of the specification. -/
def reqAna : ReqIncidente :=
  ⟨some "c@x.cl", some "12345678-9", some "Ana", some "Soto", some "agresion_fisica",
   some "golpe", some "2024-01-01", some "Centro", some "c@x.cl"⟩

/-- A centre subscribes, pays, and registers three incidents for one patient. -/
def escenario : List (Nat × Llamada) :=
  [(1000, .crearSuscripcion "abc" ⟨some "basico", some "c@x.cl", some "Centro", some "123", none⟩),
   (2000, .confirmarPago ⟨some "SUB-1000-abc", some "tok"⟩),
   (3000, .registrarIncidente "a1" reqAna),
   (4000, .registrarIncidente "a2" reqAna),
   (5000, .registrarIncidente "a3" reqAna)]

/-- The patient row at the end of `escenario`. -/
def pacienteAna : Paciente :=
  ⟨1, "12345678-9", "678", "Ana", some "Soto", "AS", Nivel.ALTO, 3000, 5000⟩

/-- A plan name that is no key of the catalogue. -/
def reqConstructor : ReqSuscripcion :=
  ⟨some "constructor", some "c@x.cl", some "Centro", some "123", none⟩

/-! ## Invariants of the store -/

/-- Every stored patient carries the level that `escalate` gives to the number
of incidents stored for that patient. -/
def RiesgoAlDia (st : Store) : Prop :=
  ∀ p ∈ st.pacientes, p.nivel_riesgo = escalate (totalIncidentes st p.id)

/-- Patient ids, and the patient ids that incidents refer to, were handed out
by the `SERIAL` of `pacientes`. -/
def IdsPacientes (st : Store) : Prop :=
  (∀ p ∈ st.pacientes, p.id < st.seqPacientes) ∧
  (∀ i ∈ st.incidentes, i.paciente_id < st.seqPacientes)

/-! ## Preconditions of the register-incident handler -/

/-- Centre ids were handed out by the `SERIAL` of `centros_medicos`; ids and
emails are keys. -/
def CentrosBienFormados (st : Store) : Prop :=
  (∀ c ∈ st.centros, c.id < st.seqCentros) ∧
  (st.centros.map fun c => c.id).Nodup ∧
  (st.centros.map fun c => c.email).Nodup

/-- Every subscription belongs to a stored centre with the same email, order
ids are keys, and every plan id is a key of the catalogue. -/
def SuscripcionesBienFormadas (st : Store) : Prop :=
  (∀ s ∈ st.suscripciones, ∃ c ∈ st.centros, c.id = s.centro_id ∧ c.email = s.email) ∧
  (st.suscripciones.map fun s => s.commerce_order).Nodup ∧
  (∀ s ∈ st.suscripciones, ∃ p, PLANES.lookup s.plan_id = some p)

/-- No stored expiry lies more than thirty days after `t`. -/
def VencimientosHasta (t : Nat) (st : Store) : Prop :=
  ∀ s ∈ st.suscripciones, ∀ v, s.fecha_vencimiento = some v → v ≤ t + 30 * msDia

/-- The subscriptions of centre `c` that are active with an expiry after `now`. -/
def activasVigentes (st : Store) (c : CentroMedico) (now : Nat) : List Suscripcion :=
  st.suscripciones.filter fun s =>
    s.centro_id == c.id && s.estado == Estado.activa && vigente s now

/-- One centre asks for two subscriptions and both are paid. -/
def dosPagos : List (Nat × Llamada) :=
  [(1000, .crearSuscripcion "abc" ⟨some "basico", some "c@x.cl", some "Centro", some "123", none⟩),
   (1500, .crearSuscripcion "def" ⟨some "empresa", some "c@x.cl", some "Centro", some "123", none⟩),
   (2000, .confirmarPago ⟨some "SUB-1000-abc", some "tok1"⟩),
   (2500, .confirmarPago ⟨some "SUB-1500-def", some "tok2"⟩)]

end Incidentes

namespace Incidentes

/-! ## Escalation, classification, identity fragment -/

/-- C1. The risk level computed by the register-incident handler is the
reference function `escalate`: ALTO from three incidents on, MEDIO for two,
BAJO for none or one; `escalate` never decreases when the count grows, and
takes the values BAJO, BAJO, MEDIO, ALTO, ALTO at 0, 1, 2, 3, 100. -/
theorem C1_nuevoNivelRiesgo_escalate :
    (∀ n, nuevoNivelRiesgo n = escalate n) ∧
    (∀ n, 3 ≤ n → nuevoNivelRiesgo n = Nivel.ALTO) ∧
    nuevoNivelRiesgo 2 = Nivel.MEDIO ∧
    (∀ n, n ≤ 1 → nuevoNivelRiesgo n = Nivel.BAJO) ∧
    (∀ m n, m ≤ n → (escalate m).rango ≤ (escalate n).rango) ∧
    escalate 0 = Nivel.BAJO ∧ escalate 1 = Nivel.BAJO ∧ escalate 2 = Nivel.MEDIO ∧
    escalate 3 = Nivel.ALTO ∧ escalate 100 = Nivel.ALTO := by
  refine ⟨?_, ?_, by decide, ?_, ?_, by decide, by decide, by decide, by decide, by decide⟩
  · intro n
    unfold nuevoNivelRiesgo escalate
    by_cases h3 : n ≥ 3
    · simp [h3]
    · by_cases h2 : n = 2
      · subst h2; simp
      · have : ¬ n ≥ 2 := by omega
        simp [h3, h2, this]
  · intro n h
    simp [nuevoNivelRiesgo, h]
  · intro n h
    have h3 : ¬ n ≥ 3 := by omega
    have h2 : ¬ n ≥ 2 := by omega
    simp [nuevoNivelRiesgo, h3, h2]
  · intro m n h
    unfold escalate
    by_cases hn3 : n ≥ 3
    · simp only [hn3, if_true]
      split_ifs <;> simp [Nivel.rango]
    · have hm3 : ¬ m ≥ 3 := by omega
      simp only [hn3, hm3, if_false]
      by_cases hn2 : n = 2
      · simp only [hn2, if_true]
        split_ifs <;> simp [Nivel.rango]
      · have hm2 : ¬ m = 2 := by omega
        simp [hn2, hm2]

/-- Instance of C1 at the counts 7 and 1 ≤ 2. -/
theorem C1_nuevoNivelRiesgo_escalate_witness :
    nuevoNivelRiesgo 7 = Nivel.ALTO ∧ (escalate 1).rango ≤ (escalate 2).rango :=
  ⟨C1_nuevoNivelRiesgo_escalate.2.1 7 (by decide),
   C1_nuevoNivelRiesgo_escalate.2.2.2.2.1 1 2 (by decide)⟩

/-- C3. The severity of a new incident is ALTO for a type code in `tiposAltos`
(agresion_fisica, amenazas), MEDIO for one in `tiposMedios` (agresion_verbal,
comportamiento_agresivo, demanda_amenazada) and BAJO for every other string,
the empty string included; the computation has no failing case. -/
theorem C3_nivelGravedad_clasifica (tipoIncidente : String) :
    tiposAltos = ["agresion_fisica", "amenazas"] ∧
    tiposMedios = ["agresion_verbal", "comportamiento_agresivo", "demanda_amenazada"] ∧
    (tipoIncidente ∈ tiposAltos → nivelGravedad tipoIncidente = Nivel.ALTO) ∧
    (tipoIncidente ∈ tiposMedios → nivelGravedad tipoIncidente = Nivel.MEDIO) ∧
    (tipoIncidente ∉ tiposAltos → tipoIncidente ∉ tiposMedios →
      nivelGravedad tipoIncidente = Nivel.BAJO) ∧
    nivelGravedad "" = Nivel.BAJO := by
  refine ⟨rfl, rfl, ?_, ?_, ?_, by decide⟩
  · intro h
    simp [nivelGravedad, h]
  · intro h
    have hno : tipoIncidente ∉ tiposAltos := by
      intro ha
      simp only [tiposAltos, tiposMedios, List.mem_cons, List.mem_singleton, List.mem_nil_iff,
        or_false] at ha h
      rcases ha with ha | ha <;> rcases h with h | h | h <;> subst ha <;> exact absurd h (by decide)
    simp [nivelGravedad, h, hno]
  · intro ha hm
    simp [nivelGravedad, ha, hm]

/-- Instance of C3 at the codes "amenazas", "demanda_amenazada" and "otro". -/
theorem C3_nivelGravedad_clasifica_witness :
    nivelGravedad "amenazas" = Nivel.ALTO ∧ nivelGravedad "demanda_amenazada" = Nivel.MEDIO ∧
    nivelGravedad "otro" = Nivel.BAJO :=
  ⟨(C3_nivelGravedad_clasifica "amenazas").2.2.1 (by decide),
   (C3_nivelGravedad_clasifica "demanda_amenazada").2.2.2.1 (by decide),
   (C3_nivelGravedad_clasifica "otro").2.2.2.2.1 (by decide) (by decide)⟩

/-- A slice from four before the end to one before the end of a list of at
least four elements is the three elements before the last one. -/
theorem jsSlice_menos4_menos1 {α : Type} (xs : List α) (h : 4 ≤ xs.length) :
    jsSlice xs (-4) (-1) = (xs.drop (xs.length - 4)).take 3 := by
  unfold jsSlice
  have h1 : max ((xs.length : Int) + -4) 0 = ((xs.length - 4 : Nat) : Int) := by omega
  have h2 : max ((xs.length : Int) + -1) 0 = ((xs.length - 1 : Nat) : Int) := by omega
  have h3 : (((xs.length - 1 : Nat) : Int) - ((xs.length - 4 : Nat) : Int)).toNat = 3 := by omega
  simp only [show ((-4 : Int) < 0) by decide, show ((-1 : Int) < 0) by decide, if_true, h1, h2, h3,
    Int.toNat_ofNat]

/-- The slice of `jsSlice_menos4_menos1`, element by element. -/
theorem jsSlice_tres_elementos {α : Type} (l : List α) (hl : 4 ≤ l.length) :
    ∃ a b c, l[l.length - 4]? = some a ∧ l[l.length - 3]? = some b ∧
      l[l.length - 2]? = some c ∧ jsSlice l (-4) (-1) = [a, b, c] := by
  have e1 : l.length - 4 < l.length := by omega
  have e2 : l.length - 3 < l.length := by omega
  have e3 : l.length - 2 < l.length := by omega
  have hfrag : (l.drop (l.length - 4)).take 3
      = [l[l.length - 4], l[l.length - 3], l[l.length - 2]] := by
    apply List.ext_getElem
    · simp; omega
    · intro i h1 h2
      simp at h2
      have hi : i = 0 ∨ i = 1 ∨ i = 2 := by omega
      rcases hi with hi | hi | hi <;> subst hi <;> simp [List.getElem_take, List.getElem_drop]
      · congr 1; omega
      · congr 1; omega
  exact ⟨l[l.length - 4], l[l.length - 3], l[l.length - 2], List.getElem?_eq_getElem e1,
    List.getElem?_eq_getElem e2, List.getElem?_eq_getElem e3,
    (jsSlice_menos4_menos1 l hl).trans hfrag⟩

/-- C4. When the digits-only form of the raw identity has length L ≥ 4, the
fragment has exactly 3 characters: those at positions L-4, L-3 and L-2 of the
digits-only string. The fragment is a function of the raw string, and is "678"
for "12345678-9". -/
theorem C4_rut_ultimos_3 (rutPaciente : String) (h : 4 ≤ (rutLimpio rutPaciente).length) :
    (rut_ultimos_3 rutPaciente).length = 3 ∧
    (∃ a b c,
      (rutLimpio rutPaciente).data[(rutLimpio rutPaciente).length - 4]? = some a ∧
      (rutLimpio rutPaciente).data[(rutLimpio rutPaciente).length - 3]? = some b ∧
      (rutLimpio rutPaciente).data[(rutLimpio rutPaciente).length - 2]? = some c ∧
      rut_ultimos_3 rutPaciente = String.mk [a, b, c]) ∧
    rut_ultimos_3 "12345678-9" = "678" := by
  obtain ⟨a, b, c, ha, hb, hc, hs⟩ := jsSlice_tres_elementos (rutLimpio rutPaciente).data h
  have hfrag : rut_ultimos_3 rutPaciente = String.mk [a, b, c] := by
    simp only [rut_ultimos_3, hs]
  refine ⟨?_, ⟨a, b, c, ha, hb, hc, hfrag⟩, by decide⟩
  rw [hfrag]; rfl

/-- Instance of C4 at the identity "12345678-9". -/
theorem C4_rut_ultimos_3_witness :
    4 ≤ (rutLimpio "12345678-9").length ∧ (rut_ultimos_3 "12345678-9").length = 3 :=
  ⟨by decide, (C4_rut_ultimos_3 "12345678-9" (by decide)).1⟩

/-- C10. The initials of the given name "ßeta" and family name "Soto" are the
three characters "SSS": the upper-case form of the sharp s is two letters, so
these initials do not fit the two characters of the column `iniciales
CHAR(2)`. For "Ana" and "Soto" they are "AS". -/
theorem C10_iniciales_tres_caracteres :
    iniciales "ßeta" (some "Soto") = "SSS" ∧
    (iniciales "ßeta" (some "Soto")).length = 3 ∧
    iniciales "Ana" (some "Soto") = "AS" := by
  decide

/-- C9. On the empty store, a request whose plan name is "constructor" (not a
key of the catalogue) is not answered 400: the lookup `PLANES[planId]` finds
the inherited member, the centre row is inserted, and the subscription insert
then fails on the missing price, so the answer is 500 and the store has
changed; the same happens for "toString". A name that is neither a key nor an
inherited member, such as "otro", is answered 400 with the store untouched. -/
theorem C9_crearSuscripcion_constructor :
    PLANES.lookup "constructor" = none ∧
    (crearSuscripcion vacio 1000 "abc" reqConstructor).1
      = Respuesta.error 500 "Error al procesar suscripción" ∧
    (crearSuscripcion vacio 1000 "abc" reqConstructor).2.centros.length = 1 ∧
    (crearSuscripcion vacio 1000 "abc" reqConstructor).2 ≠ vacio ∧
    PLANES.lookup "toString" = none ∧
    (crearSuscripcion vacio 1000 "abc" { reqConstructor with planId := some "toString" }).1
      = Respuesta.error 500 "Error al procesar suscripción" ∧
    (crearSuscripcion vacio 1000 "abc" { reqConstructor with planId := some "otro" })
      = (Respuesta.error 400 "Datos incompletos", vacio) := by
  decide

/-! ## The entitlement gate -/

theorem primeraPorVencimiento_eq_none (l : List (Suscripcion × CentroMedico)) :
    primeraPorVencimiento l = none ↔ l = [] := by
  cases l with
  | nil => simp [primeraPorVencimiento]
  | cons f fs =>
    simp only [primeraPorVencimiento]
    cases primeraPorVencimiento fs with
    | none => simp
    | some g => by_cases h : vencimiento f.1 < vencimiento g.1 <;> simp [h]

theorem primeraPorVencimiento_some (l : List (Suscripcion × CentroMedico))
    (g : Suscripcion × CentroMedico) (h : primeraPorVencimiento l = some g) :
    g ∈ l ∧ ∀ f ∈ l, vencimiento f.1 ≤ vencimiento g.1 := by
  induction l generalizing g with
  | nil => simp [primeraPorVencimiento] at h
  | cons f fs ih =>
    simp only [primeraPorVencimiento] at h
    cases hfs : primeraPorVencimiento fs with
    | none =>
      rw [hfs] at h
      have hnil : fs = [] := (primeraPorVencimiento_eq_none fs).1 hfs
      simp only [Option.some.injEq] at h
      subst h; subst hnil
      simp
    | some g0 =>
      rw [hfs] at h
      obtain ⟨hmem, hmax⟩ := ih g0 hfs
      by_cases hlt : vencimiento f.1 < vencimiento g0.1
      · simp only [hlt, if_true, Option.some.injEq] at h
        subst h
        refine ⟨List.mem_cons_of_mem _ hmem, ?_⟩
        intro x hx
        rcases List.mem_cons.1 hx with hx | hx
        · subst hx; omega
        · exact hmax x hx
      · simp only [hlt, if_false, Option.some.injEq] at h
        subst h
        refine ⟨List.mem_cons_self _ _, ?_⟩
        intro x hx
        rcases List.mem_cons.1 hx with hx | hx
        · subst hx; exact le_refl _
        · have := hmax x hx; omega

theorem mem_joinCentros (st : Store) (s : Suscripcion) (c : CentroMedico) :
    (s, c) ∈ joinCentros st ↔ s ∈ st.suscripciones ∧ c ∈ st.centros ∧ s.centro_id = c.id := by
  simp only [joinCentros, List.mem_flatMap, List.mem_map, List.mem_filter, beq_iff_eq,
    Prod.mk.injEq]
  constructor
  · rintro ⟨s0, hs0, c0, ⟨hc0, hid⟩, rfl, rfl⟩
    exact ⟨hs0, hc0, hid⟩
  · rintro ⟨hs, hc, hid⟩
    exact ⟨s, hs, c, ⟨hc, hid⟩, rfl, rfl⟩

/-- The row condition of the entitlement query, as a proposition. -/
theorem vigente_iff (s : Suscripcion) (now : Nat) :
    vigente s now = true ↔ ∃ v, s.fecha_vencimiento = some v ∧ now < v := by
  unfold vigente
  cases s.fecha_vencimiento with
  | none => simp
  | some v => simp

/-- C5. The gate of the register-incident route: when neither the `user-email`
header nor the `userEmail` field gives an email, the answer is 401 (no
autorizado); when an email is given and the store holds no subscription of
that email that is active with an expiry after now, the answer is 403
(suscripción inactiva); in both cases the store is returned as it was, so no
patient or incident row is written. -/
theorem C5_verificarSuscripcion_rechaza (st : Store) (now : Nat) (rnd : String)
    (req : ReqIncidente) :
    (truthy (jsOr req.headerUserEmail req.userEmail) = false →
      registrarIncidente st now rnd req = (Respuesta.error 401 "No autorizado", st)) ∧
    (∀ email, jsOr req.headerUserEmail req.userEmail = some email → email ≠ "" →
      (∀ s ∈ st.suscripciones, ¬ (s.email = email ∧ s.estado = Estado.activa ∧
        ∃ v, s.fecha_vencimiento = some v ∧ now < v)) →
      registrarIncidente st now rnd req = (Respuesta.error 403 "Suscripción inactiva", st)) := by
  constructor
  · intro h
    unfold registrarIncidente verificarSuscripcion
    cases hj : jsOr req.headerUserEmail req.userEmail with
    | none => rfl
    | some email =>
      rw [hj] at h
      simp [h]
  · intro email hj hne hno
    have hnil : (joinCentros st).filter (fun f =>
        f.1.email == email && f.1.estado == Estado.activa && vigente f.1 now) = [] := by
      rw [List.filter_eq_nil_iff]
      rintro ⟨s, c⟩ hmem
      have hs := ((mem_joinCentros st s c).1 hmem).1
      intro hcond
      simp only [Bool.and_eq_true, beq_iff_eq] at hcond
      exact hno s hs ⟨hcond.1.1, hcond.1.2, (vigente_iff s now).1 hcond.2⟩
    have hq : consultaActiva st email now = none := by
      unfold consultaActiva
      rw [hnil]; rfl
    have ht : truthy (some email) = true := by simp [truthy, hne]
    unfold registrarIncidente verificarSuscripcion
    simp [hj, ht, hq]

/-- Instance of C5: a request without any email on the empty store, and a
request with an email that has no subscription. -/
theorem C5_verificarSuscripcion_rechaza_witness :
    registrarIncidente vacio 3000 "a1" { reqAna with headerUserEmail := none, userEmail := none }
      = (Respuesta.error 401 "No autorizado", vacio) ∧
    registrarIncidente vacio 3000 "a1" reqAna
      = (Respuesta.error 403 "Suscripción inactiva", vacio) :=
  ⟨(C5_verificarSuscripcion_rechaza vacio 3000 "a1"
      { reqAna with headerUserEmail := none, userEmail := none }).1 (by decide),
   (C5_verificarSuscripcion_rechaza vacio 3000 "a1" reqAna).2 "c@x.cl" (by decide) (by decide)
      (by intro s hs; simp [vacio] at hs)⟩

/-! ## Risk level and incident count -/

theorem buscarOCrearPaciente_resto (st : Store) (now : Nat) (rut nombre : String)
    (apellido : Option String) :
    (buscarOCrearPaciente st now rut nombre apellido).2.incidentes = st.incidentes ∧
    (buscarOCrearPaciente st now rut nombre apellido).2.centros = st.centros ∧
    (buscarOCrearPaciente st now rut nombre apellido).2.suscripciones = st.suscripciones ∧
    (buscarOCrearPaciente st now rut nombre apellido).2.seqCentros = st.seqCentros := by
  unfold buscarOCrearPaciente
  split <;> simp

theorem buscarOCrearPaciente_inv (st : Store) (now : Nat) (rut nombre : String)
    (apellido : Option String) (hids : IdsPacientes st) (hr : RiesgoAlDia st) :
    (buscarOCrearPaciente st now rut nombre apellido).1
      < (buscarOCrearPaciente st now rut nombre apellido).2.seqPacientes ∧
    IdsPacientes (buscarOCrearPaciente st now rut nombre apellido).2 ∧
    RiesgoAlDia (buscarOCrearPaciente st now rut nombre apellido).2 := by
  unfold buscarOCrearPaciente
  split
  · refine ⟨by simp, ⟨?_, ?_⟩, ?_⟩
    · intro p hp
      simp only [List.mem_append, List.mem_singleton] at hp
      rcases hp with hp | hp
      · have := hids.1 p hp; simp only; omega
      · subst hp; simp
    · intro i hi
      have := hids.2 i hi; simp only at hi ⊢; omega
    · intro p hp
      simp only [List.mem_append, List.mem_singleton] at hp
      rcases hp with hp | hp
      · exact hr p hp
      · subst hp
        have h0 : totalIncidentes st st.seqPacientes = 0 := by
          unfold totalIncidentes
          rw [List.length_eq_zero, List.filter_eq_nil_iff]
          intro i hi hcon
          have := hids.2 i hi
          simp only [beq_iff_eq] at hcon
          omega
        show Nivel.BAJO = escalate (totalIncidentes st st.seqPacientes)
        rw [h0]; rfl
  · rename_i p ps hfil
    have hmem : p ∈ st.pacientes.filter fun q => q.rut_completo == rut := by
      rw [hfil]; exact List.mem_cons_self _ _
    exact ⟨hids.1 p (List.mem_filter.1 hmem).1, hids, hr⟩

theorem nuevoNivelRiesgo_eq_escalate (n : Nat) : nuevoNivelRiesgo n = escalate n := by
  unfold nuevoNivelRiesgo escalate
  by_cases h3 : n ≥ 3
  · simp [h3]
  · by_cases h2 : n = 2
    · subst h2; simp
    · have : ¬ n ≥ 2 := by omega
      simp [h3, h2, this]

/-- Inserting an incident for patient `pid` and then rewriting the level of
`pid` from the new count keeps every stored level up to date. -/
theorem insertar_y_actualizar_inv (st1 : Store) (now pid : Nat) (inc : Incidente)
    (hpid : pid < st1.seqPacientes) (hinc : inc.paciente_id = pid)
    (hids : IdsPacientes st1) (hr : RiesgoAlDia st1) :
    let st2 : Store :=
      { st1 with incidentes := st1.incidentes ++ [inc], seqIncidentes := st1.seqIncidentes + 1 }
    IdsPacientes (actualizarRiesgo st2 now pid (nuevoNivelRiesgo (totalIncidentes st2 pid))) ∧
    RiesgoAlDia (actualizarRiesgo st2 now pid (nuevoNivelRiesgo (totalIncidentes st2 pid))) := by
  intro st2
  constructor
  · constructor
    · intro p hp
      simp only [actualizarRiesgo, List.mem_map] at hp
      obtain ⟨q, hq, rfl⟩ := hp
      have hlt := hids.1 q hq
      by_cases hqp : q.id = pid
      · simp only [hqp, beq_self_eq_true, if_true]
        exact hpid
      · have hne : (q.id == pid) = false := by simp [hqp]
        simp only [hne, Bool.false_eq_true, if_false]
        exact hlt
    · intro i hi
      simp only [actualizarRiesgo, st2, List.mem_append, List.mem_singleton] at hi
      rcases hi with hi | hi
      · exact hids.2 i hi
      · subst hi; rw [hinc]; exact hpid
  · intro p hp
    simp only [actualizarRiesgo, List.mem_map] at hp
    obtain ⟨q, hq, rfl⟩ := hp
    have htot : ∀ x, totalIncidentes
        (actualizarRiesgo st2 now pid (nuevoNivelRiesgo (totalIncidentes st2 pid))) x
        = totalIncidentes st2 x := fun _ => rfl
    by_cases hqp : q.id = pid
    · simp only [hqp, beq_self_eq_true, if_true, htot]
      exact nuevoNivelRiesgo_eq_escalate _
    · have hne : (q.id == pid) = false := by simp [hqp]
      simp only [hne, htot]
      have hsame : totalIncidentes st2 q.id = totalIncidentes st1 q.id := by
        unfold totalIncidentes
        simp only [st2, List.filter_append, List.length_append]
        have : ([inc].filter fun i => i.paciente_id == q.id) = [] := by
          rw [List.filter_eq_nil_iff]
          intro i hi
          simp only [List.mem_singleton] at hi
          subst hi
          simp [hinc, Ne.symm hqp]
        rw [this]; rfl
      simp only [Bool.false_eq_true, if_false]
      rw [hsame]
      exact hr q hq

theorem registrarIncidenteCuerpo_inv (st : Store) (now : Nat) (rnd : String) (req : ReqIncidente)
    (hids : IdsPacientes st) (hr : RiesgoAlDia st) :
    IdsPacientes (registrarIncidenteCuerpo st now rnd req).2 ∧
    RiesgoAlDia (registrarIncidenteCuerpo st now rnd req).2 := by
  unfold registrarIncidenteCuerpo
  split
  · exact ⟨hids, hr⟩
  · split
    · rename_i rut nombre tipo desc fecha _ _ _ _ _
      obtain ⟨hlt, hids1, hr1⟩ := buscarOCrearPaciente_inv st now rut nombre req.apellido hids hr
      simp only
      split
      · exact ⟨hids1, hr1⟩
      · exact insertar_y_actualizar_inv _ now _ _ hlt rfl hids1 hr1
    · exact ⟨hids, hr⟩

theorem registrarIncidente_inv (st : Store) (now : Nat) (rnd : String) (req : ReqIncidente)
    (hids : IdsPacientes st) (hr : RiesgoAlDia st) :
    IdsPacientes (registrarIncidente st now rnd req).2 ∧
    RiesgoAlDia (registrarIncidente st now rnd req).2 := by
  unfold registrarIncidente
  split
  · exact ⟨hids, hr⟩
  · exact registrarIncidenteCuerpo_inv st now rnd req hids hr

theorem buscarOCrearCentro_pacientes (st : Store) (now : Nat) (email centro telefono : String)
    (rutCentro : Option String) (planId : String) :
    (buscarOCrearCentro st now email centro telefono rutCentro planId).2.pacientes = st.pacientes ∧
    (buscarOCrearCentro st now email centro telefono rutCentro planId).2.incidentes = st.incidentes ∧
    (buscarOCrearCentro st now email centro telefono rutCentro planId).2.seqPacientes
      = st.seqPacientes := by
  unfold buscarOCrearCentro
  split <;> simp

theorem crearSuscripcion_pacientes (st : Store) (now : Nat) (rnd : String) (req : ReqSuscripcion) :
    (crearSuscripcion st now rnd req).2.pacientes = st.pacientes ∧
    (crearSuscripcion st now rnd req).2.incidentes = st.incidentes ∧
    (crearSuscripcion st now rnd req).2.seqPacientes = st.seqPacientes := by
  unfold crearSuscripcion
  split
  · simp
  · split
    · rename_i planId email centro telefono _ _ _ _
      have h := buscarOCrearCentro_pacientes st now email centro telefono req.rutCentro planId
      simp only
      split
      · exact h
      · split <;> exact h
    · simp

theorem confirmarPago_pacientes (st : Store) (now : Nat) (req : ReqPago) :
    (confirmarPago st now req).2.pacientes = st.pacientes ∧
    (confirmarPago st now req).2.incidentes = st.incidentes ∧
    (confirmarPago st now req).2.seqPacientes = st.seqPacientes := by
  unfold confirmarPago
  split <;> simp

theorem inv_congr (st st1 : Store) (hp : st1.pacientes = st.pacientes)
    (hi : st1.incidentes = st.incidentes) (hs : st1.seqPacientes = st.seqPacientes)
    (hids : IdsPacientes st) (hr : RiesgoAlDia st) : IdsPacientes st1 ∧ RiesgoAlDia st1 := by
  refine ⟨⟨?_, ?_⟩, ?_⟩
  · intro p h; rw [hp] at h; rw [hs]; exact hids.1 p h
  · intro i h; rw [hi] at h; rw [hs]; exact hids.2 i h
  · intro p h
    rw [hp] at h
    have := hr p h
    unfold totalIncidentes at this ⊢
    rw [hi]; exact this

theorem atender_inv (st : Store) (now : Nat) (ll : Llamada)
    (hids : IdsPacientes st) (hr : RiesgoAlDia st) :
    IdsPacientes (atender st now ll).2 ∧ RiesgoAlDia (atender st now ll).2 := by
  cases ll with
  | crearSuscripcion rnd req =>
    obtain ⟨h1, h2, h3⟩ := crearSuscripcion_pacientes st now rnd req
    exact inv_congr st _ h1 h2 h3 hids hr
  | confirmarPago req =>
    obtain ⟨h1, h2, h3⟩ := confirmarPago_pacientes st now req
    exact inv_congr st _ h1 h2 h3 hids hr
  | registrarIncidente rnd req => exact registrarIncidente_inv st now rnd req hids hr

theorem servir_inv (traza : List (Nat × Llamada)) (st : Store)
    (hids : IdsPacientes st) (hr : RiesgoAlDia st) :
    IdsPacientes (servir st traza).2 ∧ RiesgoAlDia (servir st traza).2 := by
  induction traza generalizing st with
  | nil => exact ⟨hids, hr⟩
  | cons x resto ih =>
    obtain ⟨now, ll⟩ := x
    obtain ⟨h1, h2⟩ := atender_inv st now ll hids hr
    exact ih (atender st now ll).2 h1 h2

/-- C2. Start from any store without patients and incidents (the empty store
is one) and serve any sequence of requests, each of which may succeed or fail:
in the store reached, every patient's `nivel_riesgo` is `escalate` of the
number of incidents stored for that patient, the last inserted one included.
In the scenario of the specification (three registrations for "12345678-9",
Ana Soto, by a subscribed centre) the three calls succeed, the patient has
fragment "678", initials "AS" and level ALTO, and each incident has severity
ALTO. -/
theorem C2_nivel_riesgo_al_dia (st0 : Store) (traza : List (Nat × Llamada))
    (hp : st0.pacientes = []) (hi : st0.incidentes = []) :
    (∀ p ∈ (servir st0 traza).2.pacientes,
      p.nivel_riesgo = escalate (totalIncidentes (servir st0 traza).2 p.id)) ∧
    (servir vacio escenario).1.drop 2 = [Respuesta.incidente "INC-3000-A1",
        Respuesta.incidente "INC-4000-A2", Respuesta.incidente "INC-5000-A3"] ∧
    (servir vacio escenario).2.pacientes.map
        (fun p => (p.rut_completo, p.rut_ultimos_3, p.iniciales, p.nivel_riesgo))
      = [("12345678-9", "678", "AS", Nivel.ALTO)] ∧
    (servir vacio escenario).2.incidentes.map (fun i => i.nivel_gravedad)
      = [Nivel.ALTO, Nivel.ALTO, Nivel.ALTO] := by
  refine ⟨?_, by decide, by decide, by decide⟩
  have hids : IdsPacientes st0 := by
    constructor
    · intro p h; rw [hp] at h; simp at h
    · intro i h; rw [hi] at h; simp at h
  have hr : RiesgoAlDia st0 := by
    intro p h; rw [hp] at h; simp at h
  exact (servir_inv traza st0 hids hr).2

/-- Instance of C2: the scenario of the specification served on the empty
store. -/
theorem C2_nivel_riesgo_al_dia_witness :
    vacio.pacientes = [] ∧ vacio.incidentes = [] ∧
    pacienteAna ∈ (servir vacio escenario).2.pacientes ∧
    pacienteAna.nivel_riesgo
      = escalate (totalIncidentes (servir vacio escenario).2 pacienteAna.id) :=
  ⟨rfl, rfl, by decide,
   (C2_nivel_riesgo_al_dia vacio escenario rfl rfl).1 pacienteAna (by decide)⟩

/-! ## Short identities -/

theorem map_clave_map {α β : Type} (f : α → α) (clave : α → β) (h : ∀ x, clave (f x) = clave x)
    (l : List α) : (l.map f).map clave = l.map clave := by
  rw [List.map_map]
  exact List.map_congr_left fun x _ => h x

theorem registrarIncidente_suscripciones (st : Store) (now : Nat) (rnd : String)
    (req : ReqIncidente) :
    (registrarIncidente st now rnd req).2.centros = st.centros ∧
    (registrarIncidente st now rnd req).2.suscripciones = st.suscripciones ∧
    (registrarIncidente st now rnd req).2.seqCentros = st.seqCentros := by
  unfold registrarIncidente
  split
  · simp
  · unfold registrarIncidenteCuerpo
    split
    · simp
    · split
      · rename_i rut nombre tipo desc fecha _ _ _ _ _
        obtain ⟨_, h2, h3, h4⟩ := buscarOCrearPaciente_resto st now rut nombre req.apellido
        simp only
        split
        · exact ⟨h2, h3, h4⟩
        · exact ⟨h2, h3, h4⟩
      · simp

theorem buscarOCrearCentro_inv (st : Store) (now : Nat) (email centro telefono : String)
    (rutCentro : Option String) (planId : String) (hcb : CentrosBienFormados st) :
    CentrosBienFormados (buscarOCrearCentro st now email centro telefono rutCentro planId).2 ∧
    (buscarOCrearCentro st now email centro telefono rutCentro planId).2.suscripciones
      = st.suscripciones ∧
    (∃ c ∈ (buscarOCrearCentro st now email centro telefono rutCentro planId).2.centros,
      c.id = (buscarOCrearCentro st now email centro telefono rutCentro planId).1 ∧
      c.email = email) ∧
    (∀ c ∈ st.centros,
      c ∈ (buscarOCrearCentro st now email centro telefono rutCentro planId).2.centros) := by
  obtain ⟨hlt, hid, hem⟩ := hcb
  unfold buscarOCrearCentro
  split
  · rename_i hfil
    refine ⟨⟨?_, ?_, ?_⟩, rfl, ⟨_, List.mem_append_right _ (List.mem_singleton_self _), rfl, rfl⟩,
      fun c hc => List.mem_append_left _ hc⟩
    · intro c hc
      simp only [List.mem_append, List.mem_singleton] at hc
      rcases hc with hc | hc
      · have := hlt c hc; simp only; omega
      · subst hc; simp
    · simp only [List.map_append, List.map_cons, List.map_nil]
      refine List.Nodup.append hid (List.nodup_singleton _) ?_
      intro x hx hx2
      simp only [List.mem_singleton] at hx2
      obtain ⟨c, hc, rfl⟩ := List.mem_map.1 hx
      have := hlt c hc
      omega
    · simp only [List.map_append, List.map_cons, List.map_nil]
      refine List.Nodup.append hem (List.nodup_singleton _) ?_
      intro x hx hx2
      simp only [List.mem_singleton] at hx2
      obtain ⟨c, hc, rfl⟩ := List.mem_map.1 hx
      rw [List.filter_eq_nil_iff] at hfil
      exact hfil c hc (by simp [hx2])
  · rename_i c cs hfil
    have hmem : c ∈ st.centros.filter fun q => q.email == email := by
      rw [hfil]; exact List.mem_cons_self _ _
    obtain ⟨hc, hce⟩ := List.mem_filter.1 hmem
    simp only [beq_iff_eq] at hce
    exact ⟨⟨hlt, hid, hem⟩, rfl, ⟨c, hc, rfl, hce⟩, fun _ h => h⟩

theorem indexarPLANES_precio (planId : String) (monto : Int)
    (h : (indexarPLANES (some planId)).precio = some monto) :
    ∃ p, PLANES.lookup planId = some p ∧ p.precio = monto := by
  simp only [indexarPLANES] at h
  cases hl : PLANES.lookup planId with
  | none =>
    rw [hl] at h
    exfalso
    split_ifs at h <;> simp [Propiedad.precio] at h
  | some p =>
    rw [hl] at h
    simp only [Propiedad.precio, Option.some.injEq] at h
    exact ⟨p, rfl, h⟩

theorem crearSuscripcion_inv (st : Store) (now : Nat) (rnd : String) (req : ReqSuscripcion)
    (hcb : CentrosBienFormados st) (hsb : SuscripcionesBienFormadas st) :
    CentrosBienFormados (crearSuscripcion st now rnd req).2 ∧
    SuscripcionesBienFormadas (crearSuscripcion st now rnd req).2 ∧
    (∀ t, VencimientosHasta t st → VencimientosHasta t (crearSuscripcion st now rnd req).2) := by
  unfold crearSuscripcion
  split
  · exact ⟨hcb, hsb, fun _ h => h⟩
  · split
    · rename_i planId email centro telefono hplan _ _ _
      obtain ⟨hcb1, hsus, ⟨c0, hc0, hc0id, hc0em⟩, hsub⟩ :=
        buscarOCrearCentro_inv st now email centro telefono req.rutCentro planId hcb
      have hsb1 : SuscripcionesBienFormadas
          (buscarOCrearCentro st now email centro telefono req.rutCentro planId).2 := by
        refine ⟨?_, ?_, ?_⟩
        · intro s hs
          rw [hsus] at hs
          obtain ⟨c, hc, h1, h2⟩ := hsb.1 s hs
          exact ⟨c, hsub c hc, h1, h2⟩
        · rw [hsus]; exact hsb.2.1
        · rw [hsus]; exact hsb.2.2
      have hv1 : ∀ t, VencimientosHasta t st → VencimientosHasta t
          (buscarOCrearCentro st now email centro telefono req.rutCentro planId).2 := by
        intro t h s hs
        rw [hsus] at hs
        exact h s hs
      simp only
      split
      · exact ⟨hcb1, hsb1, hv1⟩
      · rename_i monto hmonto
        split
        · exact ⟨hcb1, hsb1, hv1⟩
        · rename_i hdup
          rw [hplan] at hmonto
          obtain ⟨p, hp, _⟩ := indexarPLANES_precio planId monto hmonto
          refine ⟨hcb1, ⟨?_, ?_, ?_⟩, ?_⟩
          · intro s hs
            simp only [List.mem_append, List.mem_singleton] at hs
            rcases hs with hs | hs
            · exact hsb1.1 s hs
            · subst hs
              exact ⟨c0, hc0, hc0id, hc0em⟩
          · simp only [List.map_append, List.map_cons, List.map_nil]
            refine List.Nodup.append hsb1.2.1 (List.nodup_singleton _) ?_
            intro x hx hx2
            simp only [List.mem_singleton] at hx2
            obtain ⟨s, hs, rfl⟩ := List.mem_map.1 hx
            apply hdup
            simp only [List.any_eq_true, beq_iff_eq]
            exact ⟨s, hs, hx2⟩
          · intro s hs
            simp only [List.mem_append, List.mem_singleton] at hs
            rcases hs with hs | hs
            · exact hsb1.2.2 s hs
            · subst hs
              exact ⟨p, hp⟩
          · intro t h s hs v hv
            simp only [List.mem_append, List.mem_singleton] at hs
            rcases hs with hs | hs
            · exact hv1 t h s hs v hv
            · subst hs
              simp at hv
    · exact ⟨hcb, hsb, fun _ h => h⟩

theorem activarFila_claves (now fv : Nat) (tok ord : Option String) (s : Suscripcion) :
    (activarFila now fv tok ord s).id = s.id ∧
    (activarFila now fv tok ord s).centro_id = s.centro_id ∧
    (activarFila now fv tok ord s).commerce_order = s.commerce_order ∧
    (activarFila now fv tok ord s).plan_id = s.plan_id ∧
    (activarFila now fv tok ord s).email = s.email := by
  unfold activarFila
  split <;> simp

theorem marcarCentro_claves (now : Nat) (planId : String) (cid : Nat) (c : CentroMedico) :
    (marcarCentro now planId cid c).id = c.id ∧
    (marcarCentro now planId cid c).email = c.email ∧
    (marcarCentro now planId cid c).nombre_centro = c.nombre_centro := by
  unfold marcarCentro
  split <;> simp

theorem confirmarPago_inv (st : Store) (now : Nat) (req : ReqPago)
    (hcb : CentrosBienFormados st) (hsb : SuscripcionesBienFormadas st) :
    CentrosBienFormados (confirmarPago st now req).2 ∧
    SuscripcionesBienFormadas (confirmarPago st now req).2 ∧
    (∀ t, now ≤ t → VencimientosHasta t st → VencimientosHasta t (confirmarPago st now req).2) := by
  unfold confirmarPago
  split
  · exact ⟨hcb, hsb, fun _ _ h => h⟩
  · rename_i sub resto hfil
    refine ⟨⟨?_, ?_, ?_⟩, ⟨?_, ?_, ?_⟩, ?_⟩
    · intro c hc
      simp only [List.mem_map] at hc
      obtain ⟨c0, hc0, rfl⟩ := hc
      rw [(marcarCentro_claves now _ _ c0).1]
      exact hcb.1 c0 hc0
    · simp only
      rw [map_clave_map _ _ (fun c => (marcarCentro_claves now _ _ c).1)]
      exact hcb.2.1
    · simp only
      rw [map_clave_map _ _ (fun c => (marcarCentro_claves now _ _ c).2.1)]
      exact hcb.2.2
    · intro s hs
      simp only [List.mem_map] at hs
      obtain ⟨s0, hs0, rfl⟩ := hs
      obtain ⟨c, hc, h1, h2⟩ := hsb.1 s0 hs0
      refine ⟨marcarCentro now sub.1.plan_id sub.2.id c, List.mem_map_of_mem _ hc, ?_, ?_⟩
      · rw [(marcarCentro_claves now _ _ c).1, (activarFila_claves _ _ _ _ s0).2.1]; exact h1
      · rw [(marcarCentro_claves now _ _ c).2.1, (activarFila_claves _ _ _ _ s0).2.2.2.2]; exact h2
    · simp only
      rw [map_clave_map _ _ (fun s => (activarFila_claves _ _ _ _ s).2.2.1)]
      exact hsb.2.1
    · intro s hs
      simp only [List.mem_map] at hs
      obtain ⟨s0, hs0, rfl⟩ := hs
      rw [(activarFila_claves _ _ _ _ s0).2.2.2.1]
      exact hsb.2.2 s0 hs0
    · intro t hnt hv s hs v hsv
      simp only [List.mem_map] at hs
      obtain ⟨s0, hs0, rfl⟩ := hs
      unfold activarFila at hsv
      split at hsv
      · simp only [Option.some.injEq] at hsv
        omega
      · exact hv s0 hs0 v hsv

theorem atender_suscripciones_inv (st : Store) (now : Nat) (ll : Llamada)
    (hcb : CentrosBienFormados st) (hsb : SuscripcionesBienFormadas st) :
    CentrosBienFormados (atender st now ll).2 ∧
    SuscripcionesBienFormadas (atender st now ll).2 ∧
    (∀ t, now ≤ t → VencimientosHasta t st → VencimientosHasta t (atender st now ll).2) := by
  cases ll with
  | crearSuscripcion rnd req =>
    obtain ⟨h1, h2, h3⟩ := crearSuscripcion_inv st now rnd req hcb hsb
    exact ⟨h1, h2, fun t _ h => h3 t h⟩
  | confirmarPago req => exact confirmarPago_inv st now req hcb hsb
  | registrarIncidente rnd req =>
    obtain ⟨h1, h2, h3⟩ := registrarIncidente_suscripciones st now rnd req
    refine ⟨⟨?_, ?_, ?_⟩, ⟨?_, ?_, ?_⟩, ?_⟩
    · intro c hc
      show c.id < (registrarIncidente st now rnd req).2.seqCentros
      rw [h3]
      exact hcb.1 c (h1 ▸ hc)
    · show ((registrarIncidente st now rnd req).2.centros.map fun c => c.id).Nodup
      rw [h1]; exact hcb.2.1
    · show ((registrarIncidente st now rnd req).2.centros.map fun c => c.email).Nodup
      rw [h1]; exact hcb.2.2
    · intro s hs
      show ∃ c ∈ (registrarIncidente st now rnd req).2.centros, _
      rw [h1]
      exact hsb.1 s (h2 ▸ hs)
    · show ((registrarIncidente st now rnd req).2.suscripciones.map
        fun s => s.commerce_order).Nodup
      rw [h2]; exact hsb.2.1
    · intro s hs
      exact hsb.2.2 s (h2 ▸ hs)
    · intro t _ hv s hs
      exact hv s (h2 ▸ hs)

theorem vacio_bien_formado :
    CentrosBienFormados vacio ∧ SuscripcionesBienFormadas vacio ∧ VencimientosHasta 0 vacio := by
  refine ⟨⟨?_, ?_, ?_⟩, ⟨?_, ?_, ?_⟩, ?_⟩ <;> simp [vacio, VencimientosHasta]

theorem VencimientosHasta_mono (a b : Nat) (st : Store) (hab : a ≤ b)
    (h : VencimientosHasta a st) : VencimientosHasta b st := by
  intro s hs v hv
  have := h s hs v hv
  omega

/-- The key invariants hold after any run; the expiry bound holds when the
request times never go back. -/
theorem servir_suscripciones_inv (traza : List (Nat × Llamada)) (st : Store)
    (hcb : CentrosBienFormados st) (hsb : SuscripcionesBienFormadas st) :
    CentrosBienFormados (servir st traza).2 ∧
    SuscripcionesBienFormadas (servir st traza).2 ∧
    (∀ d t, cronologica d traza → (∀ x ∈ traza, x.1 ≤ t) → d ≤ t → VencimientosHasta d st →
      VencimientosHasta t (servir st traza).2) := by
  induction traza generalizing st with
  | nil =>
    exact ⟨hcb, hsb, fun d t _ _ hdt hv => VencimientosHasta_mono d t st hdt hv⟩
  | cons x resto ih =>
    obtain ⟨now, ll⟩ := x
    obtain ⟨h1, h2, h3⟩ := atender_suscripciones_inv st now ll hcb hsb
    obtain ⟨i1, i2, i3⟩ := ih (atender st now ll).2 h1 h2
    refine ⟨i1, i2, ?_⟩
    intro d t hc hall hdt hv
    obtain ⟨hdn, hcr⟩ := hc
    have hnt : now ≤ t := hall (now, ll) (List.mem_cons_self _ _)
    apply i3 now t hcr (fun x hx => hall x (List.mem_cons_of_mem _ hx)) hnt
    exact h3 now (le_refl _) (VencimientosHasta_mono d now st hdn hv)

/-! ## Subscriptions of one centre -/

/-- In a well-formed store a subscription has the email of a centre exactly
when it refers to that centre. -/
theorem centro_de_suscripcion (st : Store) (hcb : CentrosBienFormados st)
    (hsb : SuscripcionesBienFormadas st) (c : CentroMedico) (hc : c ∈ st.centros)
    (s : Suscripcion) (hs : s ∈ st.suscripciones) :
    s.email = c.email ↔ s.centro_id = c.id := by
  obtain ⟨c1, hc1, hid, hem⟩ := hsb.1 s hs
  constructor
  · intro h
    have : c1 = c := List.inj_on_of_nodup_map hcb.2.2 hc1 hc (hem.trans h)
    rw [← hid, this]
  · intro h
    have : c1 = c := List.inj_on_of_nodup_map hcb.2.1 hc1 hc (hid.trans h)
    rw [← hem, this]

/-- C7, counterexample. A centre creates two subscriptions and both payments
are confirmed, one after the other: at time 3000 the one centre of the store
has two subscriptions that are active with an expiry in the future. -/
theorem C7_dos_activas_contraejemplo :
    (servir vacio dosPagos).1 =
      [Respuesta.suscripcion "http://localhost:3000/simulacion-pago?order=SUB-1000-abc" "SUB-1000-abc",
       Respuesta.suscripcion "http://localhost:3000/simulacion-pago?order=SUB-1500-def" "SUB-1500-def",
       Respuesta.pago (some "SUB-1000-abc"), Respuesta.pago (some "SUB-1500-def")] ∧
    (servir vacio dosPagos).2.centros.length = 1 ∧
    (∃ c ∈ (servir vacio dosPagos).2.centros,
      (activasVigentes (servir vacio dosPagos).2 c 3000).length = 2) ∧
    ¬ (∀ c ∈ (servir vacio dosPagos).2.centros,
      (activasVigentes (servir vacio dosPagos).2 c 3000).length ≤ 1) := by
  decide

/-- C7, amended. In every store reached from the empty store by a sequence of
requests, and at every time, the entitlement query for the email of a stored
centre selects at most one subscription: none exactly when the centre has no
subscription that is active with an expiry in the future, and otherwise one of
these subscriptions of that centre, with the latest expiry among them. (The
centre itself may hold several such subscriptions.) -/
theorem C7_consulta_elige_la_mas_reciente (traza : List (Nat × Llamada)) (c : CentroMedico)
    (now : Nat) (hc : c ∈ (servir vacio traza).2.centros) :
    (consultaActiva (servir vacio traza).2 c.email now = none ↔
      activasVigentes (servir vacio traza).2 c now = []) ∧
    (∀ s c0, consultaActiva (servir vacio traza).2 c.email now = some (s, c0) →
      c0 = c ∧ s ∈ activasVigentes (servir vacio traza).2 c now ∧
      ∀ s0 ∈ activasVigentes (servir vacio traza).2 c now, vencimiento s0 ≤ vencimiento s) := by
  obtain ⟨hcb, hsb, _⟩ :=
    servir_suscripciones_inv traza vacio vacio_bien_formado.1 vacio_bien_formado.2.1
  generalize (servir vacio traza).2 = st at hc hcb hsb ⊢
  have hF : ∀ s c0, (s, c0) ∈ (joinCentros st).filter (fun f =>
      f.1.email == c.email && f.1.estado == Estado.activa && vigente f.1 now) ↔
      (c0 = c ∧ s ∈ activasVigentes st c now) := by
    intro s c0
    simp only [List.mem_filter, mem_joinCentros, activasVigentes, Bool.and_eq_true, beq_iff_eq]
    constructor
    · rintro ⟨⟨hs, hc0, hid⟩, ⟨hem, hact⟩, hvig⟩
      have hcid : s.centro_id = c.id := (centro_de_suscripcion st hcb hsb c hc s hs).1 hem
      have : c0 = c := List.inj_on_of_nodup_map hcb.2.1 hc0 hc (hid.symm.trans hcid)
      exact ⟨this, hs, ⟨hcid, hact⟩, hvig⟩
    · rintro ⟨rfl, hs, ⟨hcid, hact⟩, hvig⟩
      exact ⟨⟨hs, hc, hcid⟩, ⟨(centro_de_suscripcion st hcb hsb c0 hc s hs).2 hcid, hact⟩, hvig⟩
  constructor
  · unfold consultaActiva
    rw [primeraPorVencimiento_eq_none]
    constructor
    · intro h
      rw [List.eq_nil_iff_forall_not_mem]
      intro s hs
      have := (hF s c).2 ⟨rfl, hs⟩
      rw [h] at this
      simp at this
    · intro h
      rw [List.eq_nil_iff_forall_not_mem]
      rintro ⟨s, c0⟩ hmem
      have := ((hF s c0).1 hmem).2
      rw [h] at this
      simp at this
  · intro s c0 hq
    unfold consultaActiva at hq
    obtain ⟨hmem, hmax⟩ := primeraPorVencimiento_some _ _ hq
    obtain ⟨hc0, hs⟩ := (hF s c0).1 hmem
    refine ⟨hc0, hs, ?_⟩
    intro s0 hs0
    exact hmax (s0, c) ((hF s0 c).2 ⟨rfl, hs0⟩)

/-- Instance of C7 (amended) on the store with two paid subscriptions. -/
theorem C7_consulta_elige_la_mas_reciente_witness :
    (⟨1, "c@x.cl", "Centro", none, "123", some "empresa", true, 1000, 2500⟩ : CentroMedico)
      ∈ (servir vacio dosPagos).2.centros ∧
    (consultaActiva (servir vacio dosPagos).2 "c@x.cl" 3000 = none ↔
      activasVigentes (servir vacio dosPagos).2
        ⟨1, "c@x.cl", "Centro", none, "123", some "empresa", true, 1000, 2500⟩ 3000 = []) :=
  ⟨by decide,
   (C7_consulta_elige_la_mas_reciente dosPagos
      ⟨1, "c@x.cl", "Centro", none, "123", some "empresa", true, 1000, 2500⟩ 3000 (by decide)).1⟩

/-! ## Payment confirmation and status -/

end Incidentes
